import Mathlib

/-!
Shallow embedding of the email-tracker core (package tracker and utils of
the Go repository) together with proofs about its tracking registry,
enrichment pipeline, notification sequencing and retention sweep.

Modelling conventions:
  - Go maps become association lists with Go assignment semantics
    (replace the existing binding, otherwise add a new one); Go map lookup
    becomes List.lookup.
  - time.Time becomes Int (Unix nanoseconds); t1.Before(t2) is t1 < t2 and
    t1.After(t2) is t2 < t1.
  - Go slices become List; a nil slice coincides with the empty list.
  - Calls into the Go standard library that touch the outside world
    (crypto/rand.Read, net.ParseIP and friends, the ip-api.com HTTP fetch,
    the SMTP send) are modelled as explicit oracle parameters, so every
    function stays a pure, executable Lean definition.
-/

namespace EmailTracker

/-- Model of models.TrackingEvent (src/models/tracking.go). -/
structure TrackingEvent where
  id : String
  trackingID : String
  baseURL : String
  emailID : String
  ipAddress : String
  userAgent : String
  country : String
  city : String
  region : String
  isp : String
  openedAt : Int
  deviceType : String
  browser : String
  os : String
deriving Repr, DecidableEq, Inhabited

/-- Model of models.Email (src/models). The Go fields From and To are
renamed fromAddr and toAddr because from and to are Lean keywords. -/
structure Email where
  id : String
  fromAddr : String
  toAddr : String
  subject : String
  body : String
  trackingID : String
  sentAt : Int
  notifyOnOpen : Bool
  notifyEmail : String
deriving Repr, DecidableEq, Inhabited

/-- Model of models.GeoLocation. Lat and Lon are the float64 fields already
rendered to text (fmt.Sprintf percent-f); the claims never inspect them. -/
structure GeoLocation where
  ip : String
  country : String
  city : String
  region : String
  isp : String
  lat : String
  lon : String
deriving Repr, DecidableEq, Inhabited

/-- Go map assignment m[k] = v on an association list: replace the binding
of the first pair carrying k, otherwise add a new binding at the end. -/
def mapInsert {α : Type} (k : String) (v : α) : List (String × α) → List (String × α)
  | [] => [(k, v)]
  | p :: rest => if p.1 == k then (k, v) :: rest else p :: mapInsert k v rest

/-- Model of the Tracker struct (src/tracker/tracker.go): the two shared
maps. The notificationSender and pixelTemplate fields are capabilities, not
data, and surface as oracle parameters of the operations instead. -/
structure Tracker where
  trackingData : List (String × Email)
  trackingEvents : List (String × List TrackingEvent)
deriving Repr, DecidableEq, Inhabited

/-- Model of Tracker.RegisterEmail: t.trackingData[trackingID] = email. -/
def RegisterEmail (t : Tracker) (email : Email) (trackingID : String) : Tracker :=
  { t with trackingData := mapInsert trackingID email t.trackingData }

/-- Model of Tracker.GetTrackingStats: the last event of the history when
the identifier is present with a non-empty history, nil otherwise. -/
def GetTrackingStats (t : Tracker) (trackingID : String) : Option TrackingEvent :=
  match t.trackingEvents.lookup trackingID with
  | some events => if events.length > 0 then events.getLast? else none
  | none => none

/-- Model of Tracker.GetAllTrackingEvents: the stored history when the
identifier is present, otherwise the nil slice (the empty list). -/
def GetAllTrackingEvents (t : Tracker) (trackingID : String) : List TrackingEvent :=
  match t.trackingEvents.lookup trackingID with
  | some events => events
  | none => []

/-- Lookup after mapInsert at the inserted key returns the new value. -/
theorem mapInsert_lookup_self {α : Type} (k : String) (v : α) :
    ∀ l : List (String × α), (mapInsert k v l).lookup k = some v := by
  intro l
  induction l with
  | nil => simp [mapInsert, List.lookup]
  | cons p rest ih =>
    by_cases h : p.1 = k
    · simp [mapInsert, h, List.lookup]
    · have hb : (p.1 == k) = false := beq_eq_false_iff_ne.mpr h
      have hb2 : (k == p.1) = false := beq_eq_false_iff_ne.mpr (fun e => h e.symm)
      simp [mapInsert, hb, List.lookup, hb2, ih]

/-- Lookup after mapInsert at any other key is unchanged. -/
theorem mapInsert_lookup_ne {α : Type} (k k2 : String) (v : α) (h : k2 ≠ k) :
    ∀ l : List (String × α), (mapInsert k v l).lookup k2 = l.lookup k2 := by
  intro l
  have hkk : (k2 == k) = false := beq_eq_false_iff_ne.mpr h
  induction l with
  | nil => simp [mapInsert, List.lookup, hkk]
  | cons p rest ih =>
    by_cases hp : p.1 = k
    · simp [mapInsert, hp, List.lookup, hkk]
    · have hb : (p.1 == k) = false := beq_eq_false_iff_ne.mpr hp
      simp only [mapInsert, hb, if_false, List.lookup]
      cases hq : (k2 == p.1) <;> simp [ih]

/-! Enrichment pipeline (src/tracker utils: GetClientIP, GetGeoLocation,
ParseUserAgent). -/

/-- Result of net.ParseIP on a string that is a valid IP address:
canonical is ip.String(), the three flags are the classification methods
used by GetClientIP. -/
structure IPAddr where
  canonical : String
  isPrivate : Bool
  isLoopback : Bool
  isMulticast : Bool
deriving Repr, DecidableEq, Inhabited

/-- Oracle for the Go net standard library calls made by GetClientIP:
parseIP models net.ParseIP (none on a syntactically invalid address) and
splitHostPort models net.SplitHostPort, returning the host part on
success and none when the call errors. -/
structure NetStack where
  parseIP : String → Option IPAddr
  splitHostPort : String → Option String

/-- Incoming request as seen by GetClientIP and TrackEmailOpen: the three
proxy headers (Header.Get yields the empty string when a header is
absent), r.RemoteAddr and r.UserAgent(). -/
structure HttpRequest where
  cfConnectingIP : String
  xRealIP : String
  xForwardedFor : String
  remoteAddr : String
  userAgent : String
deriving Repr, DecidableEq, Inhabited

/-- One candidate of the X-Forwarded-For loop body: trim the part, parse
it, and accept it only when it is valid and neither private nor loopback
nor multicast; the accepted value is the trimmed original string. -/
def xffPick (net : NetStack) (s : String) : Option String :=
  let ipStr := s.trim
  match net.parseIP ipStr with
  | some ip => if !ip.isPrivate && !ip.isLoopback && !ip.isMulticast then some ipStr else none
  | none => none

/-- The X-Forwarded-For loop of GetClientIP: iterate from the rightmost
comma-separated part to the leftmost and return the first accepted one. -/
def xffScan (net : NetStack) (parts : List String) : Option String :=
  parts.reverse.findSome? (xffPick net)

/-- One header stage of GetClientIP: when the header value is non-empty
and parses, return the canonical form ip.String(). -/
def clientIPFromHeader (net : NetStack) (h : String) : Option String :=
  if h != "" then (net.parseIP h).map (fun ip => ip.canonical) else none

/-- The X-Forwarded-For stage of GetClientIP. -/
def clientIPFromXFF (net : NetStack) (r : HttpRequest) : Option String :=
  if r.xForwardedFor != "" then xffScan net (r.xForwardedFor.splitOn ",") else none

/-- Model of utils.GetClientIP: CF-Connecting-IP, then X-Real-IP, then the
rightmost public X-Forwarded-For entry, finally the host part of
r.RemoteAddr (or the raw RemoteAddr when SplitHostPort errors). The early
returns of the Go code become an Option cascade. -/
def GetClientIP (net : NetStack) (r : HttpRequest) : String :=
  match clientIPFromHeader net r.cfConnectingIP with
  | some s => s
  | none =>
    match clientIPFromHeader net r.xRealIP with
    | some s => s
    | none =>
      match clientIPFromXFF net r with
      | some s => s
      | none =>
        match net.splitHostPort r.remoteAddr with
        | some host => host
        | none => r.remoteAddr

/-- Decoded JSON payload of the ip-api.com response, as the anonymous
struct of getGeoFromIPAPI. Lat and Lon are kept in rendered text form
(the Go code immediately formats the float64 values with Sprintf). -/
structure GeoAPIData where
  status : String
  country : String
  region : String
  city : String
  isp : String
  latText : String
  lonText : String
deriving Repr, DecidableEq, Inhabited

/-- Model of utils.getGeoFromIPAPI. The oracle resp is the outcome of the
HTTP GET plus body read plus JSON unmarshal: none for a transport or
decode failure, some d for a decoded payload. A payload whose status
field is not success is rejected. -/
def getGeoFromIPAPI (ip : String) (resp : Option GeoAPIData) : Except String GeoLocation :=
  match resp with
  | none => .error "transport or decode failure"
  | some d =>
    if d.status != "success" then .error "API returned non-success status"
    else .ok { ip := ip, country := d.country, city := d.city, region := d.region,
               isp := d.isp, lat := d.latText, lon := d.lonText }

/-- Model of utils.GetGeoLocation: on success the decoded location and no
error, on any failure a GeoLocation carrying only the IP (every other
field the empty string) together with a could-not-determine error. -/
def GetGeoLocation (ip : String) (resp : Option GeoAPIData) : GeoLocation × Option String :=
  match getGeoFromIPAPI ip resp with
  | .ok loc => (loc, none)
  | .error _ =>
    ({ ip := ip, country := "", city := "", region := "", isp := "", lat := "", lon := "" },
     some "could not determine location")

/-- Device classification result of utils.ParseUserAgent. -/
structure DeviceInfo where
  deviceType : String
  browser : String
  os : String
deriving Repr, DecidableEq, Inhabited

/-- Occurrence of sub as a contiguous run inside the second list. -/
def containsSub (sub : List Char) : List Char → Bool
  | [] => sub.isEmpty
  | c :: rest => sub.isPrefixOf (c :: rest) || containsSub sub rest

/-- Substring containment, modelling strings.Contains. -/
def strContains (s sub : String) : Bool :=
  containsSub sub.toList s.toList

/-- Model of utils.ParseUserAgent: lower-case the user agent and apply the
ordered substring heuristics of the Go code, with the defaults Desktop,
Unknown, Unknown. -/
def ParseUserAgent (userAgent : String) : DeviceInfo :=
  let ua := userAgent.toLower
  let deviceType :=
    if strContains ua "mobile" then "Mobile"
    else if strContains ua "tablet" then "Tablet"
    else "Desktop"
  let browser :=
    if strContains ua "chrome" then "Chrome"
    else if strContains ua "firefox" then "Firefox"
    else if strContains ua "safari" && !strContains ua "chrome" then "Safari"
    else if strContains ua "edge" then "Edge"
    else if strContains ua "opera" then "Opera"
    else "Unknown"
  let os :=
    if strContains ua "windows" then "Windows"
    else if strContains ua "mac os" then "macOS"
    else if strContains ua "linux" then "Linux"
    else if strContains ua "android" then "Android"
    else if strContains ua "iphone" || strContains ua "ipad" then "iOS"
    else "Unknown"
  { deviceType := deviceType, browser := browser, os := os }

/-! The open-event pipeline Tracker.TrackEmailOpen, with its externally
visible actions kept as an ordered trace. -/

/-- Bytes of the fixed 1x1 transparent GIF served by TrackEmailOpen. -/
def gifData : List Nat :=
  [0x47, 0x49, 0x46, 0x38, 0x39, 0x61,
   0x01, 0x00, 0x01, 0x00, 0x80, 0x00,
   0x00, 0xff, 0xff, 0xff, 0x00, 0x00,
   0x00, 0x2c, 0x00, 0x00, 0x00, 0x00,
   0x01, 0x00, 0x01, 0x00, 0x00, 0x02,
   0x02, 0x44, 0x01, 0x00, 0x3b]

/-- Externally visible step of TrackEmailOpen, in program order. The
notifySend step stands for the synchronous call
t.notificationSender.SendNotification(ctx, ...) under a ten second
context timeout: the step completes, and the following steps run, only
once that call returns. -/
inductive TraceStep where
  | notifySend (recipients : List String) (subject : String)
  | setHeader (key : String) (value : String)
  | writeBody (bytes : List Nat)
deriving Repr, DecidableEq, Inhabited

/-- Result of one TrackEmailOpen call: the updated tracker, the ordered
trace of external steps, and the event that was stored. -/
structure OpenResult where
  tracker : Tracker
  steps : List TraceStep
  event : TrackingEvent
deriving Repr, DecidableEq, Inhabited

/-- Model of Tracker.TrackEmailOpen (src/tracker/tracker.go). Oracles:
net for the standard library address calls, geoResp for the ip-api.com
fetch, uuid for utils.GenerateUUID and now for time.Now(). The GetGeo
error return is only logged by the Go code, so the model keeps the first
component and drops the error. The event is appended to the history of
trackingID; afterwards, when the identifier owns a registered email with
NotifyOnOpen set, SendNotification is called synchronously, and only then
are the response headers set and the pixel bytes written. -/
def TrackEmailOpen (t : Tracker) (net : NetStack) (geoResp : Option GeoAPIData)
    (uuid : String) (now : Int) (r : HttpRequest) (trackingID baseURL : String) : OpenResult :=
  let ip := GetClientIP net r
  let userAgent := r.userAgent
  let geoInfo := (GetGeoLocation ip geoResp).1
  let deviceInfo := ParseUserAgent userAgent
  let emailLookup := t.trackingData.lookup trackingID
  let emailID := match emailLookup with
    | some email => email.id
    | none => ""
  let event : TrackingEvent :=
    { id := uuid, trackingID := trackingID, emailID := emailID, baseURL := baseURL,
      ipAddress := ip, userAgent := userAgent,
      country := geoInfo.country, city := geoInfo.city,
      region := geoInfo.region, isp := geoInfo.isp,
      openedAt := now, deviceType := deviceInfo.deviceType,
      browser := deviceInfo.browser, os := deviceInfo.os }
  let events' := mapInsert trackingID ((t.trackingEvents.lookup trackingID).getD [] ++ [event])
    t.trackingEvents
  let notifySteps : List TraceStep :=
    match emailLookup with
    | some email =>
      if email.notifyOnOpen then
        [TraceStep.notifySend [email.notifyEmail] ("📧 Email Opened: " ++ email.subject)]
      else []
    | none => []
  { tracker := { t with trackingEvents := events' },
    steps := notifySteps ++
      [TraceStep.setHeader "Content-Type" "image/gif",
       TraceStep.setHeader "Cache-Control" "no-cache, no-store, must-revalidate",
       TraceStep.setHeader "Pragma" "no-cache",
       TraceStep.setHeader "Expires" "0",
       TraceStep.writeBody gifData],
    event := event }

/-- Wall-clock cost of one trace step, given the latency until the
SendNotification call returns (the Go context bounds it by ten seconds);
header and body writes are counted as instantaneous. -/
def stepDuration (notifyLatency : Nat) : TraceStep → Nat
  | .notifySend _ _ => notifyLatency
  | .setHeader _ _ => 0
  | .writeBody _ => 0

/-- Time elapsed from the start of the trace until the first body write
begins, under the sequential program-order semantics of the Go code. -/
def elapsedBeforeWrite (notifyLatency : Nat) : List TraceStep → Nat
  | [] => 0
  | TraceStep.writeBody _ :: _ => 0
  | s :: rest => stepDuration notifyLatency s + elapsedBeforeWrite notifyLatency rest

/-! Retention sweep Tracker.CleanupOldEntries. -/

/-- Model of Tracker.CleanupOldEntries: with cutoff = now - maxAge, first
delete from both maps every entry whose email was sent strictly before
the cutoff, then replace every remaining history by its events strictly
after the cutoff (the key survives even when the filtered history is
empty, exactly as the Go reassignment keeps the map entry). -/
def CleanupOldEntries (t : Tracker) (maxAge : Int) (now : Int) : Tracker :=
  let cutoff := now - maxAge
  let oldIds := (t.trackingData.filter (fun p => decide (p.2.sentAt < cutoff))).map Prod.fst
  let data' := t.trackingData.filter (fun p => !decide (p.2.sentAt < cutoff))
  let events' := t.trackingEvents.filter (fun p => !decide (p.1 ∈ oldIds))
  let events'' := events'.map (fun p => (p.1, p.2.filter (fun e => decide (cutoff < e.openedAt))))
  { trackingData := data', trackingEvents := events'' }

/-! Unsynchronized concurrent append. The Go statement
t.trackingEvents[id] = append(t.trackingEvents[id], event) is a read of
the current slice followed by a store of the extended slice, and the
Tracker holds no lock, so two handlers may interleave the two halves. -/

/-- Read half of the unsynchronized append: the current history. -/
def appendRead (t : Tracker) (trackingID : String) : List TrackingEvent :=
  (t.trackingEvents.lookup trackingID).getD []

/-- Write half of the unsynchronized append: store the captured history
extended by the new event. -/
def appendWrite (t : Tracker) (trackingID : String) (captured : List TrackingEvent)
    (e : TrackingEvent) : Tracker :=
  { t with trackingEvents := mapInsert trackingID (captured ++ [e]) t.trackingEvents }

/-- Scheduler step of two concurrent TrackEmailOpen appends on one
identifier: each call i performs its read step then its write step. -/
inductive RaceStep where
  | read1
  | read2
  | write1
  | write2
deriving Repr, DecidableEq, Inhabited

/-- Interleaving state: the shared tracker and the slice each call has
read but not yet written back. -/
structure RaceState where
  tracker : Tracker
  tmp1 : Option (List TrackingEvent)
  tmp2 : Option (List TrackingEvent)
deriving Repr, DecidableEq, Inhabited

/-- Effect of one scheduler step. -/
def raceStep (trackingID : String) (e1 e2 : TrackingEvent) (s : RaceState) : RaceStep → RaceState
  | .read1 => { s with tmp1 := some (appendRead s.tracker trackingID) }
  | .read2 => { s with tmp2 := some (appendRead s.tracker trackingID) }
  | .write1 => { s with tracker := appendWrite s.tracker trackingID (s.tmp1.getD []) e1 }
  | .write2 => { s with tracker := appendWrite s.tracker trackingID (s.tmp2.getD []) e2 }

/-- Run a schedule of the two concurrent appends from a tracker state. -/
def runRace (trackingID : String) (e1 e2 : TrackingEvent) (sched : List RaceStep)
    (t : Tracker) : Tracker :=
  (sched.foldl (raceStep trackingID e1 e2) { tracker := t, tmp1 := none, tmp2 := none }).tracker

/-! Identifier generation Tracker.GenerateTrackingID: 32 bytes of
crypto/rand entropy, base64.URLEncoding. -/

/-- The URL-safe base64 alphabet used by base64.URLEncoding. -/
def b64urlAlphabet : List Char :=
  "ABCDEFGHIJKLMNOPQRSTUVWXYZabcdefghijklmnopqrstuvwxyz0123456789-_".toList

/-- Character of the URL-safe base64 alphabet at a six-bit index. -/
def b64Char (n : Nat) : Char :=
  b64urlAlphabet.getD n 'A'

/-- Encoding of a byte list under base64.URLEncoding, including the
padding of a trailing one-byte or two-byte group. -/
def base64urlEncode : List Nat → List Char
  | [] => []
  | [b1] => [b64Char (b1 / 4), b64Char (b1 % 4 * 16), '=', '=']
  | [b1, b2] => [b64Char (b1 / 4), b64Char (b1 % 4 * 16 + b2 / 16), b64Char (b2 % 16 * 4), '=']
  | b1 :: b2 :: b3 :: rest =>
    b64Char (b1 / 4) :: b64Char (b1 % 4 * 16 + b2 / 16) ::
      b64Char (b2 % 16 * 4 + b3 / 64) :: b64Char (b3 % 64) :: base64urlEncode rest

/-- Model of Tracker.GenerateTrackingID. The entropy oracle is the
outcome of crypto/rand.Read into the 32-byte buffer b: an error, or the
32 bytes read. Like the Go function the model returns the pair of the
identifier and the error value: on failure the empty string and the
error, on success the base64 URL encoding of the bytes and no error. -/
def GenerateTrackingID (entropy : Except String (List Nat)) : String × Option String :=
  match entropy with
  | .error e => ("", some e)
  | .ok b => (String.mk (base64urlEncode b), none)

/-! Helper lemmas. -/

/-- Lookup misses when no pair of the list carries the key. -/
theorem lookup_eq_none_of_keys {α : Type} (k : String) :
    ∀ l : List (String × α), (∀ p ∈ l, p.1 ≠ k) → l.lookup k = none := by
  intro l
  induction l with
  | nil => intro _; rfl
  | cons p rest ih =>
    intro h
    have hk : (k == p.1) = false :=
      beq_eq_false_iff_ne.mpr (fun e => (h p (by simp)) e.symm)
    simp only [List.lookup, hk]
    exact ih (fun q hq => h q (by simp [hq]))

/-- findSome? skips a leading block on which the function yields none. -/
theorem findSome_skip_none {α β : Type} (f : α → Option β) :
    ∀ l1 l2 : List α, (∀ y ∈ l1, f y = none) →
      (l1 ++ l2).findSome? f = l2.findSome? f := by
  intro l1 l2
  induction l1 with
  | nil => intro _; rfl
  | cons a rest ih =>
    intro h
    have ha : f a = none := h a (by simp)
    simp only [List.cons_append, List.findSome?, ha]
    exact ih (fun y hy => h y (by simp [hy]))

/-- GetGeoLocation on a transport failure or a non-success payload yields
the IP-only location and the could-not-determine error. -/
theorem getGeoLocation_failure (ip : String) (geoResp : Option GeoAPIData)
    (h : geoResp = none ∨ ∃ d, geoResp = some d ∧ d.status ≠ "success") :
    GetGeoLocation ip geoResp =
      ({ ip := ip, country := "", city := "", region := "", isp := "",
         lat := "", lon := "" },
       some "could not determine location") := by
  rcases h with h | ⟨d, hd, hs⟩
  · simp [GetGeoLocation, getGeoFromIPAPI, h]
  · have hb : (d.status != "success") = true := by simp [hs]
    simp [GetGeoLocation, getGeoFromIPAPI, hd, hb]

/-- Every six-bit index maps into the URL-safe base64 alphabet. -/
theorem b64Char_mem (n : Nat) : b64Char n ∈ b64urlAlphabet := by
  unfold b64Char
  rcases h : b64urlAlphabet[n]? with _ | c
  · simp [List.getD, h]
    decide
  · have hm : c ∈ b64urlAlphabet := List.getElem?_mem h
    simp [List.getD, h, hm]

/-- Shape of the URL base64 encoding of a byte list whose length is 2 mod
3, as for the 32-byte tracking identifiers: an alphabet-only prefix
followed by exactly one padding character. -/
theorem base64urlEncode_shape : ∀ l : List Nat, l.length % 3 = 2 →
    ∃ cs, base64urlEncode l = cs ++ ['='] ∧ (∀ c ∈ cs, c ∈ b64urlAlphabet) ∧
      cs.length = l.length / 3 * 4 + 3
  | [], h => by simp at h
  | [b1], h => by simp at h
  | [b1, b2], h => by
    refine ⟨[b64Char (b1 / 4), b64Char (b1 % 4 * 16 + b2 / 16), b64Char (b2 % 16 * 4)],
      rfl, ?_, by simp⟩
    intro c hc
    simp only [List.mem_cons, List.not_mem_nil, or_false] at hc
    rcases hc with h1 | h1 | h1 <;> exact h1 ▸ b64Char_mem _
  | b1 :: b2 :: b3 :: rest, h => by
    have h' : rest.length % 3 = 2 := by
      simp only [List.length_cons] at h
      omega
    obtain ⟨cs, hc, hmem, hlen⟩ := base64urlEncode_shape rest h'
    refine ⟨b64Char (b1 / 4) :: b64Char (b1 % 4 * 16 + b2 / 16) ::
        b64Char (b2 % 16 * 4 + b3 / 64) :: b64Char (b3 % 64) :: cs, ?_, ?_, ?_⟩
    · simp [base64urlEncode, hc]
    · intro c hc2
      simp only [List.mem_cons] at hc2
      rcases hc2 with h1 | h1 | h1 | h1 | h1
      · exact h1 ▸ b64Char_mem _
      · exact h1 ▸ b64Char_mem _
      · exact h1 ▸ b64Char_mem _
      · exact h1 ▸ b64Char_mem _
      · exact hmem c h1
    · simp only [List.length_cons, hlen]
      omega

/-! Concrete fixtures used by witnesses and counterexamples. -/

/-- Network oracle on which nothing parses and SplitHostPort errors. -/
def netNone : NetStack :=
  { parseIP := fun _ => none, splitHostPort := fun _ => none }

/-- Request with no proxy headers. -/
def reqPlain : HttpRequest :=
  { cfConnectingIP := "", xRealIP := "", xForwardedFor := "",
    remoteAddr := "203.0.113.7:443", userAgent := "curl" }

/-- Sample registered email that asks for an open notification. -/
def emailNotify : Email :=
  { id := "em-9", fromAddr := "tracker@example.com", toAddr := "alice@example.com",
    subject := "hello", body := "", trackingID := "tid-9", sentAt := 0,
    notifyOnOpen := true, notifyEmail := "owner@example.com" }

/-- Tracker holding only emailNotify under tid-9. -/
def trackerNotify : Tracker :=
  { trackingData := [("tid-9", emailNotify)], trackingEvents := [] }

/-- Tracker with one present-but-empty history and nothing else. -/
def trackerEmptyHist : Tracker :=
  { trackingData := [], trackingEvents := [("present-empty", [])] }

/-- First sample open event for the interleaving schedules. -/
def evRace1 : TrackingEvent :=
  { id := "evt-1", trackingID := "dup", baseURL := "", emailID := "",
    ipAddress := "", userAgent := "", country := "", city := "", region := "",
    isp := "", openedAt := 1, deviceType := "", browser := "", os := "" }

/-- Second sample open event for the interleaving schedules. -/
def evRace2 : TrackingEvent :=
  { evRace1 with id := "evt-2", openedAt := 2 }

/-- Stale email for the retention witness, sent at time 0. -/
def emailOld : Email :=
  { emailNotify with
    id := "em-old"
    trackingID := "old"
    sentAt := 0
    notifyOnOpen := false }

/-- Stale event for the retention witness, opened at time 5. -/
def evOld : TrackingEvent :=
  { evRace1 with id := "evt-old", trackingID := "old", openedAt := 5 }

/-- Tracker holding a stale message with a history plus a stray ownerless
history, for the retention witness. -/
def trackerRetention : Tracker :=
  { trackingData := [("old", emailOld)],
    trackingEvents := [("old", [evOld]), ("stray", [evOld])] }

/-- A public address for the client IP witness. -/
def ipPublic : IPAddr :=
  { canonical := "198.51.100.9", isPrivate := false, isLoopback := false,
    isMulticast := false }

/-- Network oracle on which exactly the public sample address parses. -/
def netCF : NetStack :=
  { parseIP := fun s => if s == "198.51.100.9" then some ipPublic else none,
    splitHostPort := fun _ => none }

/-- Request carrying the public sample address in CF-Connecting-IP. -/
def reqCF : HttpRequest :=
  { reqPlain with cfConnectingIP := "198.51.100.9" }

/-! Claim theorems. -/

/-- C8: GetTrackingStats always equals the last element of the history
returned by GetAllTrackingEvents for the same identifier at the same
state: the tail event when the history is non-empty, and the absent
result when the history is empty or the identifier is unknown. -/
theorem getTrackingStats_eq_getLast_allEvents (t : Tracker) (trackingID : String) :
    GetTrackingStats t trackingID = (GetAllTrackingEvents t trackingID).getLast? := by
  unfold GetTrackingStats GetAllTrackingEvents
  cases h : t.trackingEvents.lookup trackingID with
  | none => rfl
  | some events =>
    cases events with
    | nil => rfl
    | cons e rest => simp

/-- C10: RegisterEmail changes only the message-table entry of the given
identifier: every event history is untouched, the identifier now maps to
the new email (last-writer-wins), and every other identifier keeps its
previous message entry. -/
theorem registerEmail_frame (t : Tracker) (email : Email) (trackingID : String) :
    (RegisterEmail t email trackingID).trackingEvents = t.trackingEvents
    ∧ (RegisterEmail t email trackingID).trackingData.lookup trackingID = some email
    ∧ ∀ id2, id2 ≠ trackingID →
        (RegisterEmail t email trackingID).trackingData.lookup id2
          = t.trackingData.lookup id2 := by
  exact ⟨rfl, mapInsert_lookup_self _ _ _, fun id2 h => mapInsert_lookup_ne _ _ _ h _⟩

/-- Witness for registerEmail_frame at a concrete tracker: registering
under a fresh identifier leaves the histories and the entry of tid-9
unchanged while the fresh identifier now resolves. -/
theorem registerEmail_frame_witness :
    (RegisterEmail trackerNotify emailNotify "tid-new").trackingEvents
      = trackerNotify.trackingEvents
    ∧ (RegisterEmail trackerNotify emailNotify "tid-new").trackingData.lookup "tid-new"
      = some emailNotify
    ∧ (RegisterEmail trackerNotify emailNotify "tid-new").trackingData.lookup "tid-9"
      = trackerNotify.trackingData.lookup "tid-9" := by
  obtain ⟨h1, h2, h3⟩ := registerEmail_frame trackerNotify emailNotify "tid-new"
  exact ⟨h1, h2, h3 "tid-9" (by decide)⟩

/-- C5 counterexample: the identifier present-empty has a present but
empty history while absent has none at all, yet GetTrackingStats answers
none for both, so the stats query does not let the caller distinguish a
query miss from an empty-but-present history. -/
theorem getTrackingStats_empty_vs_absent_same :
    trackerEmptyHist.trackingEvents.lookup "present-empty" = some []
    ∧ trackerEmptyHist.trackingEvents.lookup "absent" = none
    ∧ GetTrackingStats trackerEmptyHist "present-empty"
      = GetTrackingStats trackerEmptyHist "absent" := by
  exact ⟨by decide, by decide, by decide⟩

/-- C5 amended: GetTrackingStats returns the absent result none for an
identifier with no recorded events, and the same none for an identifier
whose history is present but empty, so the two cases are not
distinguishable through the stats query. -/
theorem getTrackingStats_none_of_absent_or_empty (t : Tracker) (id : String)
    (h : t.trackingEvents.lookup id = none ∨ t.trackingEvents.lookup id = some []) :
    GetTrackingStats t id = none := by
  unfold GetTrackingStats
  rcases h with h | h <;> simp [h]

/-- Witness for getTrackingStats_none_of_absent_or_empty on the
present-but-empty history. -/
theorem getTrackingStats_none_witness :
    GetTrackingStats trackerEmptyHist "present-empty" = none :=
  getTrackingStats_none_of_absent_or_empty trackerEmptyHist "present-empty"
    (Or.inr (by decide))

/-- C2: after CleanupOldEntries with horizon maxAge at sweep time now,
every remaining message was sent no earlier than the cutoff now - maxAge,
every message sent strictly before the cutoff is gone together with its
whole event history, and every event still stored in any history, owned,
live-owned or ownerless, is strictly newer than the cutoff. -/
theorem cleanupOldEntries_horizon (t : Tracker) (maxAge now : Int) :
    (∀ p ∈ (CleanupOldEntries t maxAge now).trackingData, now - maxAge ≤ p.2.sentAt)
    ∧ (∀ id em, (id, em) ∈ t.trackingData → em.sentAt < now - maxAge →
        (id, em) ∉ (CleanupOldEntries t maxAge now).trackingData
        ∧ (CleanupOldEntries t maxAge now).trackingEvents.lookup id = none)
    ∧ (∀ q ∈ (CleanupOldEntries t maxAge now).trackingEvents, ∀ e ∈ q.2,
        now - maxAge < e.openedAt) := by
  refine ⟨?_, ?_, ?_⟩
  · intro p hp
    have hf := (List.mem_filter.mp hp).2
    simp only [Bool.not_eq_true', decide_eq_false_iff_not, not_lt] at hf
    exact hf
  · intro id em hmem hlt
    constructor
    · intro hcon
      have hf := (List.mem_filter.mp hcon).2
      simp only [Bool.not_eq_true', decide_eq_false_iff_not] at hf
      exact hf hlt
    · apply lookup_eq_none_of_keys
      intro q hq
      obtain ⟨q', hq', hqeq⟩ := List.mem_map.mp hq
      have hf := (List.mem_filter.mp hq').2
      simp only [Bool.not_eq_true', decide_eq_false_iff_not] at hf
      have hid : id ∈ (t.trackingData.filter
          (fun p => decide (p.2.sentAt < now - maxAge))).map Prod.fst :=
        List.mem_map.mpr ⟨(id, em),
          List.mem_filter.mpr ⟨hmem, by simp [hlt]⟩, rfl⟩
      have hkey : q.1 = q'.1 := by rw [← hqeq]
      rw [hkey]
      exact fun e => hf (e ▸ hid)
  · intro q hq e he
    obtain ⟨q', hq', hqeq⟩ := List.mem_map.mp hq
    rw [← hqeq] at he
    simp only at he
    have := (List.mem_filter.mp he).2
    simpa using this

/-- Witness for cleanupOldEntries_horizon: sweeping trackerRetention with
horizon 10 at time 100 removes the identifier old and its history. -/
theorem cleanupOldEntries_horizon_witness :
    (CleanupOldEntries trackerRetention 10 100).trackingEvents.lookup "old" = none :=
  ((cleanupOldEntries_horizon trackerRetention 10 100).2.1 "old" emailOld
    (by decide) (by decide)).2

/-- C3: TrackEmailOpen always succeeds for every identifier, registered
or not: the identifier history becomes the old history with exactly the
one new event appended at the tail, and when no live message exists for
the identifier the stored event carries the empty owning-message
reference. -/
theorem trackEmailOpen_records_ownerless (t : Tracker) (net : NetStack)
    (geoResp : Option GeoAPIData) (uuid : String) (now : Int) (r : HttpRequest)
    (trackingID baseURL : String) :
    (TrackEmailOpen t net geoResp uuid now r trackingID
        baseURL).tracker.trackingEvents.lookup trackingID
      = some ((t.trackingEvents.lookup trackingID).getD []
          ++ [(TrackEmailOpen t net geoResp uuid now r trackingID baseURL).event])
    ∧ (t.trackingData.lookup trackingID = none →
        (TrackEmailOpen t net geoResp uuid now r trackingID baseURL).event.emailID = "") := by
  constructor
  · exact mapInsert_lookup_self _ _ _
  · intro h
    simp [TrackEmailOpen, h]

/-- Witness for trackEmailOpen_records_ownerless: an open against an
identifier that was never registered records an event whose owning
message reference is empty, and the history holds exactly that event. -/
theorem trackEmailOpen_records_witness :
    (TrackEmailOpen trackerEmptyHist netNone none "u1" 7 reqPlain "unknown"
      "http://x").event.emailID = "" :=
  (trackEmailOpen_records_ownerless trackerEmptyHist netNone none "u1" 7 reqPlain
    "unknown" "http://x").2 (by decide)

/-- C6: when the geography lookup fails, through a transport or decode
error or through a non-success payload, TrackEmailOpen still records the
open event as the new tail of the history, the four geography fields of
the stored event are empty, and the lookup error surfaces only in the
second component of GetGeoLocation, which the recording path drops. -/
theorem geoFailure_records_empty_geo (t : Tracker) (net : NetStack)
    (uuid : String) (now : Int) (r : HttpRequest) (trackingID baseURL : String)
    (geoResp : Option GeoAPIData)
    (h : geoResp = none ∨ ∃ d, geoResp = some d ∧ d.status ≠ "success") :
    (TrackEmailOpen t net geoResp uuid now r trackingID baseURL).event.country = ""
    ∧ (TrackEmailOpen t net geoResp uuid now r trackingID baseURL).event.city = ""
    ∧ (TrackEmailOpen t net geoResp uuid now r trackingID baseURL).event.region = ""
    ∧ (TrackEmailOpen t net geoResp uuid now r trackingID baseURL).event.isp = ""
    ∧ (GetGeoLocation (GetClientIP net r) geoResp).2 = some "could not determine location"
    ∧ (TrackEmailOpen t net geoResp uuid now r trackingID
        baseURL).tracker.trackingEvents.lookup trackingID
      = some ((t.trackingEvents.lookup trackingID).getD []
          ++ [(TrackEmailOpen t net geoResp uuid now r trackingID baseURL).event]) := by
  have hg := getGeoLocation_failure (GetClientIP net r) geoResp h
  refine ⟨?_, ?_, ?_, ?_, ?_, mapInsert_lookup_self _ _ _⟩
  · simp [TrackEmailOpen, hg]
  · simp [TrackEmailOpen, hg]
  · simp [TrackEmailOpen, hg]
  · simp [TrackEmailOpen, hg]
  · rw [hg]

/-- Witness for geoFailure_records_empty_geo: a transport failure yields
an event with an empty country field. -/
theorem geoFailure_records_witness :
    (TrackEmailOpen trackerEmptyHist netNone none "u2" 9 reqPlain "tid-x"
      "http://x").event.country = "" :=
  (geoFailure_records_empty_geo trackerEmptyHist netNone "u2" 9 reqPlain "tid-x"
    "http://x" none (Or.inl rfl)).1

/-- C4 refutation: for a registered message that opted into notification,
the TrackEmailOpen trace places the synchronous SendNotification call
strictly before the pixel body write, and the elapsed time until the
body write equals the entire latency of that call (which the Go context
merely caps at ten seconds): the beacon response does wait on the
completion or timeout of the notification dispatch. -/
theorem pixelWrite_waits_on_notification :
    (TrackEmailOpen trackerNotify netNone none "u" 1 reqPlain "tid-9" "http://x").steps
      = [TraceStep.notifySend ["owner@example.com"] "📧 Email Opened: hello",
         TraceStep.setHeader "Content-Type" "image/gif",
         TraceStep.setHeader "Cache-Control" "no-cache, no-store, must-revalidate",
         TraceStep.setHeader "Pragma" "no-cache",
         TraceStep.setHeader "Expires" "0",
         TraceStep.writeBody gifData]
    ∧ ∀ lat : Nat, elapsedBeforeWrite lat
        (TrackEmailOpen trackerNotify netNone none "u" 1 reqPlain "tid-9"
          "http://x").steps = lat := by
  have hsteps : (TrackEmailOpen trackerNotify netNone none "u" 1 reqPlain "tid-9"
      "http://x").steps
      = [TraceStep.notifySend ["owner@example.com"] "📧 Email Opened: hello",
         TraceStep.setHeader "Content-Type" "image/gif",
         TraceStep.setHeader "Cache-Control" "no-cache, no-store, must-revalidate",
         TraceStep.setHeader "Pragma" "no-cache",
         TraceStep.setHeader "Expires" "0",
         TraceStep.writeBody gifData] := by decide
  refine ⟨hsteps, ?_⟩
  intro lat
  rw [hsteps]
  simp [elapsedBeforeWrite, stepDuration]

/-- C1 refutation: the history append of TrackEmailOpen is definitionally
the composition of a read half and a write half on the shared map (first
conjunct), and nothing in the lock-free Tracker orders those halves
across handlers: under the sequential schedule the two concurrent opens
of one identifier both survive, while under the overlapping schedule
read-read-write-write the final history holds a single event, so one of
the two record calls is lost. -/
theorem unsynchronized_append_loses_event :
    (∀ (t : Tracker) (net : NetStack) (geoResp : Option GeoAPIData) (uuid : String)
        (now : Int) (r : HttpRequest) (trackingID baseURL : String),
      (TrackEmailOpen t net geoResp uuid now r trackingID baseURL).tracker
        = appendWrite t trackingID (appendRead t trackingID)
            (TrackEmailOpen t net geoResp uuid now r trackingID baseURL).event)
    ∧ (runRace "dup" evRace1 evRace2 [RaceStep.read1, RaceStep.write1,
          RaceStep.read2, RaceStep.write2]
        { trackingData := [], trackingEvents := [] }).trackingEvents.lookup "dup"
      = some [evRace1, evRace2]
    ∧ (runRace "dup" evRace1 evRace2 [RaceStep.read1, RaceStep.read2,
          RaceStep.write1, RaceStep.write2]
        { trackingData := [], trackingEvents := [] }).trackingEvents.lookup "dup"
      = some [evRace2] := by
  exact ⟨fun t net geoResp uuid now r trackingID baseURL => rfl, by decide, by decide⟩

/-- C7: GetClientIP resolves the client address in the priority order
CF-Connecting-IP, X-Real-IP, rightmost acceptable X-Forwarded-For entry,
transport peer address. A header candidate is accepted only when present
and parsing as an IP address, a forwarded-for candidate only when it
parses and is neither private nor loopback nor multicast, every rejected
candidate falls through to the next source, and the final fallback is
the host part of RemoteAddr or, when SplitHostPort errors, RemoteAddr
itself. -/
theorem getClientIP_priority (net : NetStack) (r : HttpRequest) :
    (∀ ip, r.cfConnectingIP ≠ "" → net.parseIP r.cfConnectingIP = some ip →
      GetClientIP net r = ip.canonical)
    ∧ (clientIPFromHeader net r.cfConnectingIP = none →
        ∀ ip, r.xRealIP ≠ "" → net.parseIP r.xRealIP = some ip →
          GetClientIP net r = ip.canonical)
    ∧ (clientIPFromHeader net r.cfConnectingIP = none →
        clientIPFromHeader net r.xRealIP = none →
        ∀ s, clientIPFromXFF net r = some s → GetClientIP net r = s)
    ∧ (clientIPFromHeader net r.cfConnectingIP = none →
        clientIPFromHeader net r.xRealIP = none →
        clientIPFromXFF net r = none →
        GetClientIP net r = (net.splitHostPort r.remoteAddr).getD r.remoteAddr)
    ∧ (∀ pre x suf s, xffPick net x = some s → (∀ y ∈ suf, xffPick net y = none) →
        xffScan net (pre ++ x :: suf) = some s)
    ∧ (∀ hv ip, clientIPFromHeader net hv = some ip →
        hv ≠ "" ∧ ∃ a, net.parseIP hv = some a ∧ ip = a.canonical)
    ∧ (∀ x s, xffPick net x = some s →
        s = x.trim ∧ ∃ a, net.parseIP x.trim = some a
          ∧ a.isPrivate = false ∧ a.isLoopback = false ∧ a.isMulticast = false) := by
  refine ⟨?_, ?_, ?_, ?_, ?_, ?_, ?_⟩
  · intro ip hne hp
    have hcf : clientIPFromHeader net r.cfConnectingIP = some ip.canonical := by
      simp [clientIPFromHeader, hne, hp]
    simp [GetClientIP, hcf]
  · intro h1 ip hne hp
    have hre : clientIPFromHeader net r.xRealIP = some ip.canonical := by
      simp [clientIPFromHeader, hne, hp]
    simp [GetClientIP, h1, hre]
  · intro h1 h2 s h3
    simp [GetClientIP, h1, h2, h3]
  · intro h1 h2 h3
    simp only [GetClientIP, h1, h2, h3]
    cases net.splitHostPort r.remoteAddr <;> rfl
  · intro pre x suf s hx hsuf
    unfold xffScan
    rw [List.reverse_append, List.reverse_cons, List.append_assoc]
    rw [findSome_skip_none (xffPick net) suf.reverse _
      (fun y hy => hsuf y (List.mem_reverse.mp hy))]
    simp [List.findSome?, hx]
  · intro hv ip hh
    unfold clientIPFromHeader at hh
    by_cases hne : hv = ""
    · simp [hne] at hh
    · have hb : (hv != "") = true := by simp [hne]
      rw [if_pos hb] at hh
      obtain ⟨a, ha, hc⟩ := Option.map_eq_some'.mp hh
      exact ⟨hne, a, ha, hc.symm⟩
  · intro x s hx
    unfold xffPick at hx
    cases hp : net.parseIP x.trim with
    | none =>
      simp only [hp] at hx
      exact absurd hx (by simp)
    | some a =>
      simp only [hp] at hx
      by_cases hacc : (!a.isPrivate && !a.isLoopback && !a.isMulticast) = true
      · rw [if_pos hacc] at hx
        have hs : s = x.trim := by
          cases hx
          rfl
        simp only [Bool.and_eq_true, Bool.not_eq_true'] at hacc
        exact ⟨hs, a, rfl, hacc.1.1, hacc.1.2, hacc.2⟩
      · rw [if_neg hacc] at hx
        cases hx

/-- Witness for getClientIP_priority: a parsing CF-Connecting-IP header
wins and its canonical form is returned. -/
theorem getClientIP_priority_witness : GetClientIP netCF reqCF = "198.51.100.9" :=
  (getClientIP_priority netCF reqCF).1 ipPublic (by decide) (by decide)

/-- C9: GenerateTrackingID fails exactly when the 32-byte entropy read
fails, returning the empty identifier together with the error; on a
successful read of the 32 bytes it returns no error and an identifier of
fixed width 44 whose first 43 characters come from the URL-safe base64
alphabet, closed by the single deterministic padding character, so the
encoding has no padding ambiguity. -/
theorem generateTrackingID_shape (entropy : Except String (List Nat)) :
    (∀ e, entropy = Except.error e → GenerateTrackingID entropy = ("", some e))
    ∧ (∀ b, entropy = Except.ok b → b.length = 32 →
        ∃ cs, GenerateTrackingID entropy = (String.mk (cs ++ ['=']), none)
          ∧ cs.length = 43 ∧ ∀ c ∈ cs, c ∈ b64urlAlphabet) := by
  constructor
  · intro e he
    subst he
    rfl
  · intro b hb hlen
    subst hb
    obtain ⟨cs, hc, hmem, hcl⟩ := base64urlEncode_shape b (by omega)
    refine ⟨cs, ?_, by omega, hmem⟩
    simp [GenerateTrackingID, hc]

/-- Witness for generateTrackingID_shape: a successful all-zero entropy
read yields no error and a 44-character identifier. -/
theorem generateTrackingID_shape_witness :
    (GenerateTrackingID (Except.ok (List.replicate 32 0))).2 = none
    ∧ (GenerateTrackingID (Except.ok (List.replicate 32 0))).1.length = 44 := by
  obtain ⟨cs, hc, hlen, hmem⟩ :=
    (generateTrackingID_shape (Except.ok (List.replicate 32 0))).2
      (List.replicate 32 0) rfl (by decide)
  rw [hc]
  refine ⟨rfl, ?_⟩
  show (String.mk (cs ++ ['='])).length = 44
  simp [String.length, hlen]
